import Mathlib

/-!
# Verification of the `rsfdisk` partition data model and prompt protocol

Shallow embedding of the `rsfdisk` core: the library-level error types
(`src/error.rs`, `src/core/errors/prompt_error_enum.rs`) are translated
directly from the Rust source.  The implementation modules for `Partition`,
`PartitionList`, `PartitionKind` and `Prompt` are declared in
`src/core/partition/mod.rs` and `src/core/mod.rs` but their bodies are not
part of the provided sources, so those operations are modelled from the
specification, as marked on each definition.
-/

namespace Rsfdisk

/-- From `src/error.rs`: `pub enum RsFdiskError {}` — the library-level error
enum, declared with no variants. -/
inductive RsFdiskError : Type

/-- From `src/error.rs`: `pub type Result<T> = std::result::Result<T, RsFdiskError>;`. -/
def RsfdiskResult (T : Type) : Type := Except RsFdiskError T

/-- From the Rust standard library's `std::ffi::NulError`, as used by
`src/core/errors/prompt_error_enum.rs`: records the position of the first
interior NUL byte found while converting a string to a `CString`. -/
structure NulError where
  nulPosition : Nat
deriving DecidableEq, Repr

/-- From `src/core/errors/prompt_error_enum.rs`: the four variants of
`PromptError` — `Allocation(String)`, `Config(String)`,
`CStringConversion(#[from] NulError)`, `Selection(String)`. -/
inductive PromptError : Type
  | Allocation (msg : String)
  | Config (msg : String)
  | CStringConversion (e : NulError)
  | Selection (msg : String)
deriving DecidableEq, Repr

/-- The `#[from] NulError` conversion on `PromptError::CStringConversion`:
a failed `CString` conversion is injected into `PromptError` through this
variant and no other. -/
def PromptError.fromNulError (e : NulError) : PromptError :=
  PromptError.CStringConversion e

/-- Position of the first NUL character in a character list, if any. -/
def findNul : List Char → Option Nat
  | [] => none
  | c :: cs => if c = Char.ofNat 0 then some 0 else (findNul cs).map (· + 1)

/-- Model of `std::ffi::CString::new` as used by the prompt module: the
conversion fails, yielding a `NulError` carrying the position of the first
embedded NUL character, exactly when the input string contains one. -/
def cstringNew (s : String) : Except NulError String :=
  match findNul s.data with
  | some i => Except.error ⟨i⟩
  | none => Except.ok s

end Rsfdisk

namespace Rsfdisk

/-- Modelled from the spec: the `Number` variant of `Prompt`
(`src/core/prompt` is declared but its body is missing from the sources) —
"Number{low, high, default, reference point, bytes-per-unit,
relative/negative/lettered flags, answer}". -/
structure NumberPrompt where
  low : Nat
  high : Nat
  defaultValue : Nat
  referencePoint : Nat
  bytesPerUnit : Nat
  requiresLetteredPartitions : Bool
  acceptsNegativeNumbers : Bool
  relative : Bool
  answer : Option Nat
deriving DecidableEq, Repr

/-- Modelled from the spec: relative/wrap resolution of a raw answer `v` for a
`Number` prompt — "reference point (base for relative answers)";
"`accepts_negative_numbers` (negative wraps relative to high)". A negative `v`
with the negative-wrap flag resolves to `high + v`; otherwise, with the
relative flag enabled, `v` resolves to `reference point + v`; otherwise `v`
stands as given. -/
def numberResolve (p : NumberPrompt) (v : Int) : Int :=
  if p.acceptsNegativeNumbers ∧ v < 0 then (p.high : Int) + v
  else if p.relative then (p.referencePoint : Int) + v
  else v

/-- Modelled from the spec: `Prompt::number_set_answer`
(`src/core/prompt` body missing) — "fails with Selection if v is outside
[low, high] after relative/wrap resolution; fails with Config if low > high";
on success the resolved value is stored as the prompt's answer. -/
def number_set_answer (p : NumberPrompt) (v : Int) : Except PromptError NumberPrompt :=
  if p.low > p.high then
    Except.error (PromptError.Config "invalid bounds: low > high")
  else
    let r := numberResolve p v
    if (p.low : Int) ≤ r ∧ r ≤ (p.high : Int) then
      Except.ok { p with answer := some r.toNat }
    else
      Except.error (PromptError.Selection "value out of bounds")

/-- Modelled from the spec: `MenuItem` — "(single-character key, display
name)" (`src/core/prompt` body missing). -/
structure MenuItem where
  key : Char
  name : String
deriving DecidableEq, Repr

/-- Modelled from the spec: the `Menu` variant of `Prompt` — "Menu{ordered
(key,name) items, default key, answer}" (`src/core/prompt` body missing). -/
structure MenuPrompt where
  items : List MenuItem
  defaultKey : Option Char
  answer : Option Char
deriving DecidableEq, Repr

/-- Modelled from the spec: `Prompt::menu_item_select` — "fails with Selection
if key absent" (`src/core/prompt` body missing); on success the key is stored
as the selected answer. -/
def menu_item_select (p : MenuPrompt) (k : Char) : Except PromptError MenuPrompt :=
  if p.items.any (fun it => it.key = k) then
    Except.ok { p with answer := some k }
  else
    Except.error (PromptError.Selection "no menu item with this key")

/-- Modelled from the spec: the variants of `Prompt` — "Number{…}, Menu{…},
YesNo{…}, String{…}, Info/Warning/Error{code, message, no answer}"
(`src/core/prompt` body missing). -/
inductive PromptKind : Type
  | number
  | menu
  | yesNo
  | text
  | info
  | warning
  | errorMessage
deriving DecidableEq, Repr

/-- Modelled from the spec: whether a prompt variant takes an answer —
Number/Menu/YesNo/String do, Info/Warning/Error "carry code + message, no
answer". -/
def PromptKind.takesAnswer : PromptKind → Bool
  | .number => true
  | .menu => true
  | .yesNo => true
  | .text => true
  | .info => false
  | .warning => false
  | .errorMessage => false

/-- Modelled from the spec: the lifecycle states of one `Prompt` instance —
"Created(unanswered) → Answered(terminal)" and "Created → Displayed(terminal)". -/
inductive PromptState : Type
  | created
  | answered
  | displayed
deriving DecidableEq, Repr

/-- Modelled from the spec: the transition relation of the per-instance
`Prompt` state machine — "Created(unanswered) → Answered(terminal) for
Number/Menu/YesNo/String; Created → Displayed(terminal) for
Info/Warning/Error; no reverse transition". The answering transition consumes
the prompt: it only fires from `created`, so a second answer has no
originating state. -/
inductive PromptStep : PromptKind → PromptState → PromptState → Prop
  | answer (k : PromptKind) (h : k.takesAnswer = true) :
      PromptStep k PromptState.created PromptState.answered
  | display (k : PromptKind) (h : k.takesAnswer = false) :
      PromptStep k PromptState.created PromptState.displayed

/-- Modelled from the spec: `Partition` (`src/core/partition/partition_struct.rs`
is declared in `src/core/partition/mod.rs` but missing from the sources) —
"optional 1-based number, optional starting sector, optional
size-or-ending-sector (end = start + size − 1, mutually derivable), optional
name, optional UUID"; "an unset field means 'compute a default'", encoded as
`none`. -/
structure Partition where
  number : Option Nat
  startingSector : Option Nat
  sizeInSectors : Option Nat
  name : Option String
  uuid : Option String
deriving DecidableEq, Repr

/-- Modelled from the spec: `Partition::ending_sector` — the ending sector is
derived from the starting sector and the size, "end = start + size − 1,
mutually derivable"; it reports a value only when both fields are set,
otherwise it uses its default. -/
def Partition.ending_sector (p : Partition) : Option Nat :=
  match p.startingSector, p.sizeInSectors with
  | some s, some n => some (s + n - 1)
  | _, _ => none

/-- Modelled from the spec: `Partition::set_starting_sector` — "Setters
overwrite and clear default status". -/
def Partition.set_starting_sector (p : Partition) (s : Nat) : Partition :=
  { p with startingSector := some s }

/-- Modelled from the spec: `Partition::set_size_in_sectors`. -/
def Partition.set_size_in_sectors (p : Partition) (n : Nat) : Partition :=
  { p with sizeInSectors := some n }

/-- Modelled from the spec: `Partition::set_partition_number`. -/
def Partition.set_partition_number (p : Partition) (n : Nat) : Partition :=
  { p with number := some n }

/-- Modelled from the spec: `Partition::unset_size_in_sectors` — "`unset_*`
reverts to default and cascades to dependent fields (unsetting size also
unsets the derived end)"; the end being derived, dropping the size suffices. -/
def Partition.unset_size_in_sectors (p : Partition) : Partition :=
  { p with sizeInSectors := none }

/-- Modelled from the spec: `PartitionBuilder` — "Builder accumulates optional
`number`, `starting_sector`, `size_in_sectors`, `name`, `uuid`"
(`src/core/partition/partition_builder_struct.rs` missing from the sources). -/
structure PartitionBuilder where
  number : Option Nat
  startingSector : Option Nat
  sizeInSectors : Option Nat
  name : Option String
  uuid : Option String
deriving DecidableEq, Repr

/-- Modelled from the spec: `Partition::builder` starts construction with
every field left to its default. -/
def PartitionBuilder.new : PartitionBuilder :=
  ⟨none, none, none, none, none⟩

/-- Modelled from the spec: `PartitionBuilder::starting_sector`. -/
def PartitionBuilder.starting_sector (b : PartitionBuilder) (s : Nat) : PartitionBuilder :=
  { b with startingSector := some s }

/-- Modelled from the spec: `PartitionBuilder::size_in_sectors`. -/
def PartitionBuilder.size_in_sectors (b : PartitionBuilder) (n : Nat) : PartitionBuilder :=
  { b with sizeInSectors := some n }

/-- Modelled from the spec: `PartitionBuilder::partition_number`. -/
def PartitionBuilder.partition_number (b : PartitionBuilder) (n : Nat) : PartitionBuilder :=
  { b with number := some n }

/-- Modelled from the spec: `PartitionBuilder::build` — the spec's `Config`
failures concern constraints (device bounds, label-specific attribute bits)
that live outside this data model, so on the modelled fields construction
always succeeds, transcribing each accumulated field. -/
def PartitionBuilder.build (b : PartitionBuilder) : Partition :=
  ⟨b.number, b.startingSector, b.sizeInSectors, b.name, b.uuid⟩

/-- Three-way comparison on sector/partition numbers. -/
def cmpNat (a b : Nat) : Ordering :=
  if a < b then Ordering.lt else if b < a then Ordering.gt else Ordering.eq

/-- Modelled from the spec: comparison of one optional field — "an unset field
always sorts after any set value": `none` compares greater than any `some`. -/
def cmpOptNat : Option Nat → Option Nat → Ordering
  | none, none => Ordering.eq
  | none, some _ => Ordering.gt
  | some _, none => Ordering.lt
  | some a, some b => cmpNat a b

/-- Modelled from the spec: `Partition::compare_starting_sectors`
(`src/core/partition/partition_struct.rs` missing) — compares starting
sectors, an unset start sorting after any set one. -/
def Partition.compare_starting_sectors (a b : Partition) : Ordering :=
  cmpOptNat a.startingSector b.startingSector

/-- Modelled from the spec: `Partition::compare_partition_numbers` — compares
partition numbers, an unset number sorting after any set one, "ties on number
broken by starting sector". -/
def Partition.compare_partition_numbers (a b : Partition) : Ordering :=
  match cmpOptNat a.number b.number with
  | Ordering.eq => cmpOptNat a.startingSector b.startingSector
  | o => o

/-- Modelled from the spec: the adjacent-pair violation test behind
`PartitionList::is_not_in_increasing_order` — a pair of neighbours violates
the expected order when their "starts are non-ascending or their ranges
overlap". Entries without a set starting sector take no part in the check;
an entry without a set size only constrains the ordering of starts. -/
def wrongOrderAdjacent (a b : Partition) : Bool :=
  match a.startingSector, b.startingSector with
  | some sa, some sb =>
    if sb ≤ sa then true
    else
      match a.sizeInSectors with
      | some na => decide (sb ≤ sa + na - 1)
      | none => false
  | _, _ => false

/-- Scan of adjacent entries for the first out-of-order or overlapping pair. -/
def wrongOrderScan : List Partition → Bool
  | [] => false
  | [_] => false
  | a :: b :: rest => wrongOrderAdjacent a b || wrongOrderScan (b :: rest)

/-- Modelled from the spec: `PartitionList` — "ordered sequence of Partition"
(`src/core/partition/partition_list_struct.rs` missing from the sources). -/
structure PartitionList where
  items : List Partition
deriving DecidableEq, Repr

/-- Modelled from the spec: `PartitionList::new`. -/
def PartitionList.new : PartitionList := ⟨[]⟩

/-- Modelled from the spec: `PartitionList::push` — "append, no resort". -/
def PartitionList.push (l : PartitionList) (p : Partition) : PartitionList :=
  ⟨l.items ++ [p]⟩

/-- Modelled from the spec: `PartitionList::is_not_in_increasing_order` —
"scans adjacent entries and reports true on the first pair whose starts are
non-ascending or whose ranges overlap, without mutating"; the call is given in
state-passing form, returning the reported flag together with the (unchanged)
list. -/
def PartitionList.is_not_in_increasing_order (l : PartitionList) : Bool × PartitionList :=
  (wrongOrderScan l.items, l)

/-- The premise of the sortedness claim for one adjacent pair: both ranges
are explicit, non-empty, strictly increasing and non-overlapping. -/
def StrictlyIncreasingNonOverlapping (a b : Partition) : Prop :=
  ∃ sa na sb, a.startingSector = some sa ∧ a.sizeInSectors = some na ∧
    b.startingSector = some sb ∧ 1 ≤ na ∧ sa + na ≤ sb

/-- Modelled from the spec: the five label families — "partition-table format
in use (DOS/MBR, GPT, SUN, SGI, BSD), each with its own type catalog". -/
inductive LabelScheme : Type
  | dos
  | gpt
  | sun
  | sgi
  | bsd
deriving DecidableEq, Repr

/-- Modelled from the spec: the identifying value of a `PartitionKind` —
"addressed either by integer code (DOS/SUN/SGI) or GUID string (GPT)". -/
inductive KindId : Type
  | code (n : Nat)
  | guid (g : String)
deriving DecidableEq, Repr

/-- Modelled from the spec: `PartitionKind`
(`src/core/partition/partition_kind_struct.rs` is declared in
`src/core/partition/mod.rs` but missing from the sources) — "identifies a
partition's role, addressed either by integer code (DOS/SUN/SGI) or GUID
string (GPT), always with a display name". -/
structure PartitionKind where
  scheme : LabelScheme
  id : KindId
  name : Option String
deriving DecidableEq, Repr

/-- Modelled from the spec: equality of `PartitionKind` — "Equality/hashing:
scheme + identifying value"; the display name takes no part. -/
def PartitionKind.eqKind (a b : PartitionKind) : Bool :=
  decide (a.scheme = b.scheme) && decide (a.id = b.id)

/-- Modelled from the spec: `PartitionKindBuilder`
(`src/core/partition/partition_kind_builder_struct.rs` missing from the
sources) — accumulates an optional integer code, an optional GUID string and
an optional display name. -/
structure PartitionKindBuilder where
  codeValue : Option Nat
  guidValue : Option String
  nameValue : Option String
deriving DecidableEq, Repr

/-- Modelled from the spec: `PartitionKind::builder` starts validated
construction with nothing set. -/
def PartitionKindBuilder.new : PartitionKindBuilder :=
  ⟨none, none, none⟩

/-- Modelled from the spec: `PartitionKindBuilder::code` — sets the integer
identifying code (DOS/SUN/SGI). -/
def PartitionKindBuilder.code (b : PartitionKindBuilder) (n : Nat) : PartitionKindBuilder :=
  { b with codeValue := some n }

/-- Modelled from the spec: `PartitionKindBuilder::guid` — sets the GUID
string (GPT). -/
def PartitionKindBuilder.guid (b : PartitionKindBuilder) (g : String) : PartitionKindBuilder :=
  { b with guidValue := some g }

/-- Modelled from the spec: `PartitionKindBuilder::name` — sets the display
text. -/
def PartitionKindBuilder.name (b : PartitionKindBuilder) (s : String) : PartitionKindBuilder :=
  { b with nameValue := some s }

/-- Modelled from the spec: `PartitionKindBuilder::build` — "`code(n)`
(DOS/SUN/SGI) and `guid(s)` (GPT) are mutually exclusive — setting both fails
with a Config error at `build()`"; "`build()` fails with Config if no
identifying value was set". A GUID yields a GPT kind; the spec leaves the
choice among the code-addressed families to the catalog context, which the
model fixes to DOS. -/
def PartitionKindBuilder.build (b : PartitionKindBuilder) :
    Except PromptError PartitionKind :=
  match b.codeValue, b.guidValue with
  | some _, some _ =>
    Except.error (PromptError.Config "code and guid are mutually exclusive")
  | none, none =>
    Except.error (PromptError.Config "no identifying value set")
  | some n, none => Except.ok ⟨LabelScheme.dos, KindId.code n, b.nameValue⟩
  | none, some g => Except.ok ⟨LabelScheme.gpt, KindId.guid g, b.nameValue⟩

/-- State-passing form of `number_set_answer`: the pair of the call's outcome
and the prompt the caller is left holding afterwards. -/
def number_set_answer_state (p : NumberPrompt) (v : Int) :
    Except PromptError Unit × NumberPrompt :=
  match number_set_answer p v with
  | Except.ok q => (Except.ok (), q)
  | Except.error e => (Except.error e, p)

/-- State-passing form of `menu_item_select`: the pair of the call's outcome
and the prompt the caller is left holding afterwards. -/
def menu_item_select_state (p : MenuPrompt) (k : Char) :
    Except PromptError Unit × MenuPrompt :=
  match menu_item_select p k with
  | Except.ok q => (Except.ok (), q)
  | Except.error e => (Except.error e, p)

end Rsfdisk

namespace Rsfdisk

/-- C10: `RsFdiskError` has no variants, so no value of it can be constructed
and every value of `rsfdisk::Result<T>` is necessarily `Ok`. -/
theorem rsfdisk_result_always_ok :
    (∀ e : RsFdiskError, False) ∧
    (∀ (T : Type) (r : RsfdiskResult T), ∃ t : T, r = Except.ok t) := by
  constructor
  · intro e
    cases e
  · intro T r
    cases r with
    | error e => cases e
    | ok t => exact ⟨t, rfl⟩

/-- C1: for a `Number` prompt with `low ≤ high`, `number_set_answer v`
succeeds exactly when `v` lies in `[low, high]` after relative/wrap
resolution, and returns a `Selection` error otherwise; when `low > high` it
returns a `Config` error. -/
theorem number_set_answer_ok_iff_in_bounds (p : NumberPrompt) (v : Int) :
    (p.low ≤ p.high →
      ((∃ q, number_set_answer p v = Except.ok q) ↔
        ((p.low : Int) ≤ numberResolve p v ∧ numberResolve p v ≤ (p.high : Int))) ∧
      (¬ ((p.low : Int) ≤ numberResolve p v ∧ numberResolve p v ≤ (p.high : Int)) →
        ∃ m, number_set_answer p v = Except.error (PromptError.Selection m))) ∧
    (p.low > p.high →
      ∃ m, number_set_answer p v = Except.error (PromptError.Config m)) := by
  constructor
  · intro hle
    have hnot : ¬ p.low > p.high := by omega
    constructor
    · constructor
      · intro ⟨q, hq⟩
        by_contra hout
        simp only [number_set_answer, if_neg hnot, if_neg hout] at hq
        exact Except.noConfusion hq
      · intro hin
        refine ⟨{ p with answer := some (numberResolve p v).toNat }, ?_⟩
        simp only [number_set_answer, if_neg hnot, if_pos hin]
    · intro hout
      refine ⟨"value out of bounds", ?_⟩
      simp only [number_set_answer, if_neg hnot, if_neg hout]
  · intro hgt
    refine ⟨"invalid bounds: low > high", ?_⟩
    simp only [number_set_answer, if_pos hgt]

/-- Witness for C1 at concrete prompts: `low = 1, high = 4`, answer `1` is
accepted, answer `5` yields a `Selection` error, and with inverted bounds
`low = 4 > high = 1` the call yields a `Config` error. -/
theorem number_set_answer_ok_iff_in_bounds_witness :
    (∃ q, number_set_answer ⟨1, 4, 1, 0, 512, false, false, false, none⟩ 1 = Except.ok q) ∧
    (∃ m, number_set_answer ⟨1, 4, 1, 0, 512, false, false, false, none⟩ 5 =
      Except.error (PromptError.Selection m)) ∧
    (∃ m, number_set_answer ⟨4, 1, 1, 0, 512, false, false, false, none⟩ 2 =
      Except.error (PromptError.Config m)) := by
  refine ⟨?_, ?_, ?_⟩
  · exact ((number_set_answer_ok_iff_in_bounds
      ⟨1, 4, 1, 0, 512, false, false, false, none⟩ 1).1 (by decide)).1.2 (by decide)
  · exact ((number_set_answer_ok_iff_in_bounds
      ⟨1, 4, 1, 0, 512, false, false, false, none⟩ 5).1 (by decide)).2 (by decide)
  · exact (number_set_answer_ok_iff_in_bounds
      ⟨4, 1, 1, 0, 512, false, false, false, none⟩ 2).2 (by decide)

theorem findNul_isSome_iff (l : List Char) :
    (findNul l).isSome = true ↔ Char.ofNat 0 ∈ l := by
  induction l with
  | nil => simp [findNul]
  | cons c cs ih =>
    by_cases hc : c = Char.ofNat 0
    · simp [findNul, hc]
    · simp only [findNul, if_neg hc]
      have hmap : (((findNul cs).map (· + 1)).isSome) = (findNul cs).isSome := by
        cases findNul cs <;> rfl
      rw [hmap, ih]
      constructor
      · intro h
        exact List.mem_cons_of_mem c h
      · intro h
        rcases List.mem_cons.mp h with h0 | h1
        · exact absurd h0.symm hc
        · exact h1

/-- C8: every `PromptError` is one of exactly the four variants `Allocation`,
`Config`, `CStringConversion` and `Selection`; the text-conversion failure
arises exactly from a failed `CString` conversion, which fails precisely on a
string containing an embedded NUL character and is injected into
`PromptError` as the `CStringConversion` variant. -/
theorem prompt_error_exactly_four_kinds :
    (∀ e : PromptError,
      (∃ s, e = PromptError.Allocation s) ∨
      (∃ s, e = PromptError.Config s) ∨
      (∃ ne, e = PromptError.CStringConversion ne) ∨
      (∃ s, e = PromptError.Selection s)) ∧
    (∀ s : String,
      (∃ ne, cstringNew s = Except.error ne) ↔ Char.ofNat 0 ∈ s.data) ∧
    (∀ ne : NulError, PromptError.fromNulError ne = PromptError.CStringConversion ne) := by
  refine ⟨?_, ?_, fun _ => rfl⟩
  · intro e
    cases e with
    | Allocation s => exact Or.inl ⟨s, rfl⟩
    | Config s => exact Or.inr (Or.inl ⟨s, rfl⟩)
    | CStringConversion ne => exact Or.inr (Or.inr (Or.inl ⟨ne, rfl⟩))
    | Selection s => exact Or.inr (Or.inr (Or.inr ⟨s, rfl⟩))
  · intro s
    rw [← findNul_isSome_iff s.data]
    unfold cstringNew
    cases h : findNul s.data with
    | none => simp [h]
    | some i => simp [h]

/-- C7: the per-instance `Prompt` state machine — the answer-taking variants
step only `created → answered`, the display variants only
`created → displayed`, both terminal states admit no outgoing transition (so
no reverse transition exists), and no two transitions can ever be chained:
each prompt is resolved exactly once, and answering an already-resolved
prompt is impossible. -/
theorem prompt_state_machine :
    (∀ (k : PromptKind) (s : PromptState), ¬ PromptStep k PromptState.answered s) ∧
    (∀ (k : PromptKind) (s : PromptState), ¬ PromptStep k PromptState.displayed s) ∧
    (∀ (k : PromptKind) (s s' : PromptState),
      PromptStep k s s' → s = PromptState.created) ∧
    (∀ k : PromptKind, k.takesAnswer = true →
      ∀ s : PromptState, PromptStep k PromptState.created s → s = PromptState.answered) ∧
    (∀ k : PromptKind, k.takesAnswer = false →
      ∀ s : PromptState, PromptStep k PromptState.created s → s = PromptState.displayed) ∧
    (∀ (k : PromptKind) (a b c : PromptState),
      PromptStep k a b → PromptStep k b c → False) := by
  refine ⟨?_, ?_, ?_, ?_, ?_, ?_⟩
  · intro k s h
    cases h
  · intro k s h
    cases h
  · intro k s s' h
    cases h <;> rfl
  · intro k hk s h
    cases h with
    | answer _ => rfl
    | display h' => rw [hk] at h'; exact Bool.noConfusion h'
  · intro k hk s h
    cases h with
    | answer h' => rw [hk] at h'; exact Bool.noConfusion h'
    | display _ => rfl
  · intro k a b c h1 h2
    cases h1 <;> cases h2

/-- C3: building a `Partition` with explicit starting sector `S` and explicit
size `N` yields `ending_sector = S + N − 1`; after `unset_size_in_sectors` the
size reports as using its default (absence) and the derived ending sector
reverts to default as well. -/
theorem partition_build_end_roundtrip (S N : Nat) :
    (((PartitionBuilder.new.starting_sector S).size_in_sectors N).build).ending_sector
        = some (S + N - 1) ∧
    ((((PartitionBuilder.new.starting_sector S).size_in_sectors N).build).unset_size_in_sectors).sizeInSectors
        = none ∧
    ((((PartitionBuilder.new.starting_sector S).size_in_sectors N).build).unset_size_in_sectors).ending_sector
        = none := by
  refine ⟨rfl, rfl, rfl⟩

theorem wrongOrderAdjacent_eq_false_of_sorted {a b : Partition}
    (h : StrictlyIncreasingNonOverlapping a b) : wrongOrderAdjacent a b = false := by
  obtain ⟨sa, na, sb, ha, hn, hb, h1, h2⟩ := h
  simp only [wrongOrderAdjacent, ha, hb, hn]
  rw [if_neg (by omega)]
  simp only [decide_eq_false_iff_not]
  omega

theorem wrongOrderScan_eq_false :
    ∀ l : List Partition, List.Chain' StrictlyIncreasingNonOverlapping l →
      wrongOrderScan l = false
  | [], _ => rfl
  | [_], _ => rfl
  | a :: b :: rest, h => by
    rw [List.chain'_cons] at h
    unfold wrongOrderScan
    rw [wrongOrderAdjacent_eq_false_of_sorted h.1,
      wrongOrderScan_eq_false (b :: rest) h.2]
    rfl

theorem wrongOrderScan_append_pair (a p : Partition)
    (h : wrongOrderAdjacent a p = true) :
    ∀ xs : List Partition, wrongOrderScan (xs ++ [a, p]) = true := by
  intro xs
  induction xs with
  | nil => simp [wrongOrderScan, h]
  | cons x xs ih =>
    cases xs with
    | nil => simp_all [wrongOrderScan]
    | cons y ys => simp_all [wrongOrderScan]

/-- C2: on a `PartitionList` whose entries are pairwise strictly increasing
and non-overlapping in push order, `is_not_in_increasing_order` reports
`false`; pushing a partition whose range overlaps its neighbour's or whose
start is non-ascending relative to it makes the report `true`; and in either
case the call returns the list unchanged. -/
theorem is_not_in_increasing_order_spec :
    (∀ l : PartitionList, List.Chain' StrictlyIncreasingNonOverlapping l.items →
      (l.is_not_in_increasing_order).1 = false) ∧
    (∀ (l : PartitionList) (a p : Partition), l.items.getLast? = some a →
      wrongOrderAdjacent a p = true →
      ((l.push p).is_not_in_increasing_order).1 = true) ∧
    (∀ l : PartitionList, (l.is_not_in_increasing_order).2 = l) := by
  refine ⟨?_, ?_, fun _ => rfl⟩
  · intro l h
    exact wrongOrderScan_eq_false l.items h
  · intro l a p hlast h
    obtain ⟨xs, hxs⟩ := List.getLast?_eq_some_iff.mp hlast
    show wrongOrderScan (l.items ++ [p]) = true
    rw [hxs, List.append_assoc]
    exact wrongOrderScan_append_pair a p h xs

/-- Witness for C2 at concrete lists: two disjoint ascending partitions pass
the check; pushing an overlapping third trips it; the list is returned
untouched. -/
theorem is_not_in_increasing_order_spec_witness :
    ((PartitionList.mk
        [⟨some 1, some 10, some 5, none, none⟩,
         ⟨some 2, some 20, some 5, none, none⟩]).is_not_in_increasing_order).1 = false ∧
    (((PartitionList.mk
        [⟨some 1, some 10, some 5, none, none⟩,
         ⟨some 2, some 20, some 5, none, none⟩]).push
          ⟨some 3, some 22, some 5, none, none⟩).is_not_in_increasing_order).1 = true ∧
    ((PartitionList.mk
        [⟨some 1, some 10, some 5, none, none⟩]).is_not_in_increasing_order).2 =
      PartitionList.mk [⟨some 1, some 10, some 5, none, none⟩] := by
  refine ⟨?_, ?_, ?_⟩
  · exact is_not_in_increasing_order_spec.1 _
      (by constructor
          · exact ⟨10, 5, 20, rfl, rfl, rfl, by omega, by omega⟩
          · exact List.chain'_singleton _)
  · exact is_not_in_increasing_order_spec.2.1 _
      ⟨some 2, some 20, some 5, none, none⟩
      ⟨some 3, some 22, some 5, none, none⟩ (by rfl) (by rfl)
  · exact is_not_in_increasing_order_spec.2.2 _

theorem cmpNat_swap (a b : Nat) : cmpNat a b = (cmpNat b a).swap := by
  unfold cmpNat
  rcases Nat.lt_trichotomy a b with h | h | h
  · rw [if_pos h, if_neg (by omega), if_pos h]
    rfl
  · rw [if_neg (by omega), if_neg (by omega), if_neg (by omega), if_neg (by omega)]
    rfl
  · rw [if_neg (by omega), if_pos h, if_pos h]
    rfl

theorem cmpNat_eq_eq_iff (a b : Nat) : cmpNat a b = Ordering.eq ↔ a = b := by
  unfold cmpNat
  split_ifs with h1 h2 <;> simp <;> omega

theorem cmpNat_eq_lt_iff (a b : Nat) : cmpNat a b = Ordering.lt ↔ a < b := by
  unfold cmpNat
  split_ifs with h1 h2 <;> simp <;> omega

theorem cmpOptNat_swap (a b : Option Nat) : cmpOptNat a b = (cmpOptNat b a).swap := by
  cases a <;> cases b <;> first | rfl | exact cmpNat_swap _ _

theorem cmpOptNat_eq_eq_iff (a b : Option Nat) : cmpOptNat a b = Ordering.eq ↔ a = b := by
  cases a <;> cases b <;>
    simp only [cmpOptNat, cmpNat_eq_eq_iff, Option.some.injEq, reduceCtorEq] <;>
    simp

theorem cmpOptNat_lt_trans {a b c : Option Nat} (h1 : cmpOptNat a b = Ordering.lt)
    (h2 : cmpOptNat b c = Ordering.lt) : cmpOptNat a c = Ordering.lt := by
  cases a <;> cases b <;> cases c <;>
    simp only [cmpOptNat, cmpNat_eq_lt_iff, reduceCtorEq] at * <;> omega

theorem cmpOptNat_ne_gt_iff (a b : Option Nat) :
    cmpOptNat a b ≠ Ordering.gt ↔ (cmpOptNat a b = Ordering.lt ∨ a = b) := by
  rw [← cmpOptNat_eq_eq_iff]
  cases h : cmpOptNat a b <;> simp

/-- C4: `compare_partition_numbers` and `compare_starting_sectors` are total
orders on partitions — each comparison is antisymmetric under swapping its
arguments, transitive on the induced `≤`, and equal exactly on equivalent
keys — in which a partition with the relevant field unset sorts strictly
after any partition with that field set, and ties on partition number are
broken by starting sector. -/
theorem partition_comparators_total_orders :
    ((∀ a b : Partition,
        Partition.compare_starting_sectors a b =
          (Partition.compare_starting_sectors b a).swap) ∧
     (∀ a b : Partition,
        Partition.compare_starting_sectors a b = Ordering.eq ↔
          a.startingSector = b.startingSector) ∧
     (∀ a b c : Partition,
        Partition.compare_starting_sectors a b ≠ Ordering.gt →
        Partition.compare_starting_sectors b c ≠ Ordering.gt →
        Partition.compare_starting_sectors a c ≠ Ordering.gt) ∧
     (∀ (a b : Partition) (s : Nat), a.startingSector = none →
        b.startingSector = some s →
        Partition.compare_starting_sectors a b = Ordering.gt)) ∧
    ((∀ a b : Partition,
        Partition.compare_partition_numbers a b =
          (Partition.compare_partition_numbers b a).swap) ∧
     (∀ a b : Partition,
        Partition.compare_partition_numbers a b = Ordering.eq ↔
          (a.number = b.number ∧ a.startingSector = b.startingSector)) ∧
     (∀ a b c : Partition,
        Partition.compare_partition_numbers a b ≠ Ordering.gt →
        Partition.compare_partition_numbers b c ≠ Ordering.gt →
        Partition.compare_partition_numbers a c ≠ Ordering.gt) ∧
     (∀ (a b : Partition) (n : Nat), a.number = none → b.number = some n →
        Partition.compare_partition_numbers a b = Ordering.gt) ∧
     (∀ a b : Partition, a.number = b.number →
        Partition.compare_partition_numbers a b =
          Partition.compare_starting_sectors a b)) := by
  have hswap : ∀ a b : Partition,
      Partition.compare_partition_numbers a b =
        (Partition.compare_partition_numbers b a).swap := by
    intro a b
    unfold Partition.compare_partition_numbers
    rw [cmpOptNat_swap a.number b.number]
    cases cmpOptNat b.number a.number with
    | lt => rfl
    | gt => rfl
    | eq => exact cmpOptNat_swap _ _
  have hpn_ne_gt : ∀ a b : Partition,
      Partition.compare_partition_numbers a b ≠ Ordering.gt ↔
        (cmpOptNat a.number b.number = Ordering.lt ∨
          (a.number = b.number ∧
            cmpOptNat a.startingSector b.startingSector ≠ Ordering.gt)) := by
    intro a b
    unfold Partition.compare_partition_numbers
    cases h : cmpOptNat a.number b.number with
    | lt => simp
    | gt => simp [h, ← cmpOptNat_eq_eq_iff]
    | eq =>
      rw [cmpOptNat_eq_eq_iff] at h
      simp [h, cmpOptNat_eq_eq_iff]
  refine ⟨⟨?_, ?_, ?_, ?_⟩, ⟨hswap, ?_, ?_, ?_, ?_⟩⟩
  · intro a b
    exact cmpOptNat_swap _ _
  · intro a b
    exact cmpOptNat_eq_eq_iff _ _
  · intro a b c h1 h2
    rw [Partition.compare_starting_sectors, cmpOptNat_ne_gt_iff] at *
    rcases h1 with h1 | h1 <;> rcases h2 with h2 | h2
    · exact Or.inl (cmpOptNat_lt_trans h1 h2)
    · rw [h2] at h1
      exact Or.inl h1
    · rw [h1]
      exact Or.inl h2
    · rw [h1, h2]
      exact Or.inr rfl
  · intro a b s ha hb
    unfold Partition.compare_starting_sectors
    rw [ha, hb]
    rfl
  · intro a b
    unfold Partition.compare_partition_numbers
    cases h : cmpOptNat a.number b.number with
    | lt =>
      have hne : a.number ≠ b.number := fun hc => by
        rw [(cmpOptNat_eq_eq_iff _ _).mpr hc] at h
        exact Ordering.noConfusion h
      simp [hne, cmpOptNat_eq_eq_iff]
    | gt =>
      have hne : a.number ≠ b.number := fun hc => by
        rw [(cmpOptNat_eq_eq_iff _ _).mpr hc] at h
        exact Ordering.noConfusion h
      simp [hne, cmpOptNat_eq_eq_iff]
    | eq =>
      rw [cmpOptNat_eq_eq_iff] at h
      simp [h, cmpOptNat_eq_eq_iff]
  · intro a b c h1 h2
    rw [hpn_ne_gt] at *
    rcases h1 with h1 | ⟨he1, hs1⟩ <;> rcases h2 with h2 | ⟨he2, hs2⟩
    · exact Or.inl (cmpOptNat_lt_trans h1 h2)
    · rw [← he2]
      exact Or.inl h1
    · rw [he1]
      exact Or.inl h2
    · refine Or.inr ⟨he1.trans he2, ?_⟩
      rw [cmpOptNat_ne_gt_iff] at *
      rcases hs1 with hs1 | hs1 <;> rcases hs2 with hs2 | hs2
      · exact Or.inl (cmpOptNat_lt_trans hs1 hs2)
      · rw [hs2] at hs1
        exact Or.inl hs1
      · rw [hs1]
        exact Or.inl hs2
      · rw [hs1, hs2]
        exact Or.inr rfl
  · intro a b n ha hb
    unfold Partition.compare_partition_numbers
    rw [ha, hb]
    rfl
  · intro a b h
    unfold Partition.compare_partition_numbers
    rw [h, (cmpOptNat_eq_eq_iff _ _).mpr rfl]
    rfl

/-- Witness for C4 at concrete partitions: transitivity of the two induced
`≤` relations on three concrete partitions, and an unset number sorting after
a set one. -/
theorem partition_comparators_total_orders_witness :
    Partition.compare_starting_sectors ⟨some 1, some 10, none, none, none⟩
        ⟨some 3, some 30, none, none, none⟩ ≠ Ordering.gt ∧
    Partition.compare_partition_numbers ⟨some 1, some 10, none, none, none⟩
        ⟨some 3, some 30, none, none, none⟩ ≠ Ordering.gt ∧
    Partition.compare_partition_numbers ⟨none, some 10, none, none, none⟩
        ⟨some 3, some 30, none, none, none⟩ = Ordering.gt := by
  refine ⟨?_, ?_, ?_⟩
  · exact partition_comparators_total_orders.1.2.2.1
      ⟨some 1, some 10, none, none, none⟩ ⟨some 2, some 20, none, none, none⟩
      ⟨some 3, some 30, none, none, none⟩ (by decide) (by decide)
  · exact partition_comparators_total_orders.2.2.2.1
      ⟨some 1, some 10, none, none, none⟩ ⟨some 2, some 20, none, none, none⟩
      ⟨some 3, some 30, none, none, none⟩ (by decide) (by decide)
  · exact partition_comparators_total_orders.2.2.2.2.1
      ⟨none, some 10, none, none, none⟩ ⟨some 3, some 30, none, none, none⟩
      3 rfl rfl

/-- C5: `PartitionKind` equality is an equivalence relation — reflexive,
symmetric and transitive — and two kinds from different label schemes never
compare equal, even when their raw identifying values coincide. -/
theorem partition_kind_eq_equivalence :
    (∀ a : PartitionKind, a.eqKind a = true) ∧
    (∀ a b : PartitionKind, a.eqKind b = true → b.eqKind a = true) ∧
    (∀ a b c : PartitionKind, a.eqKind b = true → b.eqKind c = true →
      a.eqKind c = true) ∧
    (∀ a b : PartitionKind, a.scheme ≠ b.scheme → a.eqKind b = false) := by
  refine ⟨?_, ?_, ?_, ?_⟩
  · intro a
    simp [PartitionKind.eqKind]
  · intro a b h
    simp only [PartitionKind.eqKind, Bool.and_eq_true, decide_eq_true_eq] at *
    exact ⟨h.1.symm, h.2.symm⟩
  · intro a b c h1 h2
    simp only [PartitionKind.eqKind, Bool.and_eq_true, decide_eq_true_eq] at *
    exact ⟨h1.1.trans h2.1, h1.2.trans h2.2⟩
  · intro a b h
    simp [PartitionKind.eqKind, h]

/-- Witness for C5: symmetry and transitivity applied at concrete kinds, and
a DOS kind with code `0x83` never equals a SUN kind with the same raw code. -/
theorem partition_kind_eq_equivalence_witness :
    PartitionKind.eqKind ⟨LabelScheme.dos, KindId.code 131, some "Linux"⟩
      ⟨LabelScheme.dos, KindId.code 131, none⟩ = true ∧
    PartitionKind.eqKind ⟨LabelScheme.dos, KindId.code 131, none⟩
      ⟨LabelScheme.dos, KindId.code 131, some "ext"⟩ = true ∧
    PartitionKind.eqKind ⟨LabelScheme.dos, KindId.code 131, none⟩
      ⟨LabelScheme.sun, KindId.code 131, none⟩ = false := by
  refine ⟨?_, ?_, ?_⟩
  · exact partition_kind_eq_equivalence.2.1
      ⟨LabelScheme.dos, KindId.code 131, none⟩
      ⟨LabelScheme.dos, KindId.code 131, some "Linux"⟩ (by decide)
  · exact partition_kind_eq_equivalence.2.2.1
      ⟨LabelScheme.dos, KindId.code 131, none⟩
      ⟨LabelScheme.dos, KindId.code 131, some "Linux"⟩
      ⟨LabelScheme.dos, KindId.code 131, some "ext"⟩ (by decide) (by decide)
  · exact partition_kind_eq_equivalence.2.2.2
      ⟨LabelScheme.dos, KindId.code 131, none⟩
      ⟨LabelScheme.sun, KindId.code 131, none⟩ (by decide)

/-- C6: `PartitionKindBuilder::build` fails with a `Config` error when both
`code(n)` and `guid(s)` were set — in either order — and also fails with a
`Config` error when no identifying value was set at all. -/
theorem partition_kind_build_config_errors :
    (∀ b : PartitionKindBuilder, b.codeValue ≠ none → b.guidValue ≠ none →
      ∃ m, b.build = Except.error (PromptError.Config m)) ∧
    (∀ b : PartitionKindBuilder, b.codeValue = none → b.guidValue = none →
      ∃ m, b.build = Except.error (PromptError.Config m)) ∧
    (∀ (n : Nat) (g : String),
      ∃ m, ((PartitionKindBuilder.new.code n).guid g).build =
        Except.error (PromptError.Config m)) ∧
    (∀ (n : Nat) (g : String),
      ∃ m, ((PartitionKindBuilder.new.guid g).code n).build =
        Except.error (PromptError.Config m)) ∧
    (∃ m, PartitionKindBuilder.new.build =
      Except.error (PromptError.Config m)) := by
  have hboth : ∀ b : PartitionKindBuilder, b.codeValue ≠ none → b.guidValue ≠ none →
      ∃ m, b.build = Except.error (PromptError.Config m) := by
    intro b hc hg
    obtain ⟨n, hn⟩ := Option.ne_none_iff_exists'.mp hc
    obtain ⟨g, hgv⟩ := Option.ne_none_iff_exists'.mp hg
    refine ⟨"code and guid are mutually exclusive", ?_⟩
    unfold PartitionKindBuilder.build
    rw [hn, hgv]
  refine ⟨hboth, ?_, ?_, ?_, ?_⟩
  · intro b hc hg
    refine ⟨"no identifying value set", ?_⟩
    unfold PartitionKindBuilder.build
    rw [hc, hg]
  · intro n g
    exact hboth _ (by simp [PartitionKindBuilder.new, PartitionKindBuilder.code,
      PartitionKindBuilder.guid]) (by simp [PartitionKindBuilder.new,
      PartitionKindBuilder.code, PartitionKindBuilder.guid])
  · intro n g
    exact hboth _ (by simp [PartitionKindBuilder.new, PartitionKindBuilder.code,
      PartitionKindBuilder.guid]) (by simp [PartitionKindBuilder.new,
      PartitionKindBuilder.code, PartitionKindBuilder.guid])
  · exact ⟨"no identifying value set", rfl⟩

/-- Witness for C6: a builder holding both code `0x83` and a GUID fails with
`Config`, and the empty builder fails with `Config`. -/
theorem partition_kind_build_config_errors_witness :
    (∃ m, (PartitionKindBuilder.mk (some 131) (some "0FC63DAF") none).build =
      Except.error (PromptError.Config m)) ∧
    (∃ m, (PartitionKindBuilder.mk none none none).build =
      Except.error (PromptError.Config m)) :=
  ⟨partition_kind_build_config_errors.1
      (PartitionKindBuilder.mk (some 131) (some "0FC63DAF") none)
      (by decide) (fun h => Option.noConfusion h),
   partition_kind_build_config_errors.2.1
      (PartitionKindBuilder.mk none none none) rfl rfl⟩

/-- C9: error atomicity of the fallible mutating operations — whenever
`number_set_answer` or `menu_item_select` reports an error, the prompt the
caller is left holding is exactly the prompt it passed in: no partial
mutation survives an error. -/
theorem error_leaves_state_unchanged :
    (∀ (p : NumberPrompt) (v : Int) (e : PromptError),
      (number_set_answer_state p v).1 = Except.error e →
      (number_set_answer_state p v).2 = p) ∧
    (∀ (p : MenuPrompt) (k : Char) (e : PromptError),
      (menu_item_select_state p k).1 = Except.error e →
      (menu_item_select_state p k).2 = p) := by
  constructor
  · intro p v e h
    unfold number_set_answer_state at *
    cases hc : number_set_answer p v with
    | ok q => rw [hc] at h; exact Except.noConfusion h
    | error e' => rfl
  · intro p k e h
    unfold menu_item_select_state at *
    cases hc : menu_item_select p k with
    | ok q => rw [hc] at h; exact Except.noConfusion h
    | error e' => rfl

/-- Witness for C9: a rejected out-of-bounds number answer and a rejected
unknown menu key both leave their prompts untouched. -/
theorem error_leaves_state_unchanged_witness :
    (number_set_answer_state ⟨1, 4, 1, 0, 512, false, false, false, none⟩ 5).2 =
      ⟨1, 4, 1, 0, 512, false, false, false, none⟩ ∧
    (menu_item_select_state ⟨[⟨'p', "primary"⟩, ⟨'e', "extended"⟩], some 'p', none⟩ 'x').2 =
      ⟨[⟨'p', "primary"⟩, ⟨'e', "extended"⟩], some 'p', none⟩ :=
  ⟨error_leaves_state_unchanged.1 ⟨1, 4, 1, 0, 512, false, false, false, none⟩ 5
      (PromptError.Selection "value out of bounds") rfl,
   error_leaves_state_unchanged.2 ⟨[⟨'p', "primary"⟩, ⟨'e', "extended"⟩], some 'p', none⟩ 'x'
      (PromptError.Selection "no menu item with this key") rfl⟩

/-- Witness for C7: a `Number` prompt can be answered from `created`, and
chaining that step with any further step out of `answered` is impossible. -/
theorem prompt_state_machine_witness :
    PromptState.answered = PromptState.answered ∧
    ¬ (PromptStep PromptKind.number PromptState.created PromptState.answered ∧
       PromptStep PromptKind.number PromptState.answered PromptState.created) :=
  ⟨prompt_state_machine.2.2.2.1 PromptKind.number rfl PromptState.answered
      (PromptStep.answer PromptKind.number rfl),
   fun h => prompt_state_machine.2.2.2.2.2 PromptKind.number
      PromptState.created PromptState.answered PromptState.created h.1 h.2⟩

end Rsfdisk
